import Mathlib

/-!
Shallow embedding of the MapleJuris question-answering core.

The embedding covers:
* the `ChatGraphState` pydantic schema (`src/schemas/chat_graph_schemas.py`),
* the retrieval agent's similarity-search contract
  (`RetrievalAgent.process`, `src/agents/retrieval_agent.py`),
* the chat agent's input validation (`ChatAgent.process`,
  `src/agents/chat_agent.py`),
* the LangGraph workflow of `ChatGraph` (`src/graphs/chat_graph.py`): the
  routing node, retrieval node, chat node, error handler, the two routers
  and the `run` pipeline,
* the API response projection (`ChatService.process_question`,
  `src/api/routes.py`).

External collaborators (the OpenAI embedding model, the pgvector cosine
distance operator `<=>`, the database contents, and the LLM chain) are
passed as explicit function parameters; an exception raised by a
collaborator is modelled as an `Except.error` carrying the exception text.
-/

/-- Models Python `s.lower()`: lower-case every character. -/
def pyLower (s : String) : String := String.mk (s.data.map Char.toLower)

/-- Models the Python substring test `pat in s` (contiguous substring
containment over the code points of the two strings). -/
def pyIn (pat s : String) : Bool := decide (pat.data <:+: s.data)

/-- Models the Python falsiness test `not s or not s.strip()` used by both
agents' input validation: true exactly when `s` is empty or consists only
of whitespace characters. -/
def pyFalsyStr (s : String) : Bool := s.data.all Char.isWhitespace

/-- Models the Python slice `s[:n]` (first `n` code points of `s`). -/
def pySlice (s : String) (n : Nat) : String := String.mk (s.data.take n)

/-- Truthiness of a Python `str | None` value: `None` and the empty string
are falsy, every other string is truthy. -/
def pyTruthy : Option String → Bool
  | none => false
  | some s => !(s == "")

/-- A formatted retrieval result, as built by `RetrievalAgent.process`
(`src/agents/retrieval_agent.py`, the `formatted_results` dictionaries). -/
structure SectionHit where
  id : String
  text : String
  label : String
  position : Int
  statute_title : String
  statute_long_title : String
  similarity : ℚ
deriving DecidableEq

/-- The graph state schema `ChatGraphState`
(`src/schemas/chat_graph_schemas.py`). -/
structure ChatGraphState where
  question : String
  needs_retrieval : Bool
  retrieved_sections : List SectionHit
  answer : Option String
  error : Option String
deriving DecidableEq

/-- Pydantic schema default for `needs_retrieval`
(`src/schemas/chat_graph_schemas.py`, `Field(default=False)`). -/
def ChatGraphState.defaultNeedsRetrieval : Bool := false

/-- Pydantic schema default for `retrieved_sections`
(`src/schemas/chat_graph_schemas.py`, `Field(default_factory=list)`). -/
def ChatGraphState.defaultRetrievedSections : List SectionHit := []

/-- A row of the `sections` table joined (via `bodies`) with its owning
statute's titles, as read by the SQL query in `RetrievalAgent.process`.
`text` and `embedding` are nullable columns. -/
structure SectionRow where
  id : String
  label : String
  text : Option String
  position : Int
  short_title : String
  long_title : String
  embedding : Option (List ℚ)
deriving DecidableEq

namespace RetrievalAgent

/-- The SQL `WHERE` clause of the similarity query:
`s.embedding IS NOT NULL AND s.text IS NOT NULL AND s.text != ''`. -/
def eligibleRow (r : SectionRow) : Bool :=
  r.embedding.isSome && (match r.text with
    | none => false
    | some t => !(t == ""))

/-- The SQL ordering key `s.embedding <=> '[qvec]'::vector` (cosine
distance of the row's embedding to the query vector); `dist` is the
pgvector `<=>` operator, passed in as an external collaborator. Rows with
a `NULL` embedding never reach this key because of the `WHERE` clause. -/
def rowDist (dist : List ℚ → List ℚ → ℚ) (qvec : List ℚ) (r : SectionRow) : ℚ :=
  match r.embedding with
  | some e => dist qvec e
  | none => 0

/-- The Boolean comparison used to model the SQL `ORDER BY` on ascending
cosine distance. -/
def distLe (dist : List ℚ → List ℚ → ℚ) (qvec : List ℚ) (a b : SectionRow) : Bool :=
  decide (rowDist dist qvec a ≤ rowDist dist qvec b)

/-- The projection of one result row into a result dictionary
(`src/agents/retrieval_agent.py`, the `formatted_results.append` call),
with `similarity = 1 - (s.embedding <=> qvec)` as in the SQL `SELECT`. -/
def mkHit (dist : List ℚ → List ℚ → ℚ) (qvec : List ℚ) (r : SectionRow) : SectionHit :=
  { id := r.id
    text := r.text.getD ""
    label := r.label
    position := r.position
    statute_title := r.short_title
    statute_long_title := r.long_title
    similarity := 1 - rowDist dist qvec r }

/-- Models `RetrievalAgent.process(query, k)`
(`src/agents/retrieval_agent.py`): validate the query, embed it, then run
the similarity SQL query (filter eligible rows, order by ascending cosine
distance, take `k`, project each row to a result dictionary). `embed` is
the external embedding model, `dist` the pgvector cosine-distance
operator, `db` the joined contents of the `sections`/`bodies`/`statutes`
tables. A raised `ValueError` is modelled as `Except.error` with the
exception text. -/
def process (embed : String → List ℚ) (dist : List ℚ → List ℚ → ℚ)
    (db : List SectionRow) (query : String) (k : Nat) :
    Except String (List SectionHit) :=
  if pyFalsyStr query then
    Except.error "Query cannot be empty"
  else
    Except.ok (((((db.filter eligibleRow).mergeSort
      (distLe dist (embed query))).take k)).map (mkHit dist (embed query)))

end RetrievalAgent

namespace ChatAgent

/-- Models `ChatAgent.process(question)` (`src/agents/chat_agent.py`):
validate the question, then invoke the LLM chain. `chain` is the external
prompt/LLM/parser chain, returning the parsed answer text or an exception;
it is only consulted after validation succeeds. -/
def process (chain : String → Except String String) (question : String) :
    Except String String :=
  if pyFalsyStr question then
    Except.error "Question cannot be empty"
  else
    chain question

end ChatAgent

namespace ChatGraph

/-- The fixed keyword list of `ChatGraph.route_question_node`
(`src/graphs/chat_graph.py`, `legal_keywords`). -/
def legalKeywords : List String :=
  ["law", "legal", "act", "statute", "section", "penalty", "offence",
   "crime", "criminal", "regulation", "canada", "canadian", "legislation"]

/-- The routing decision of `route_question_node`:
`any(keyword in question.lower() for keyword in legal_keywords)`. -/
def routeDecision (question : String) : Bool :=
  legalKeywords.any (fun kw => pyIn kw (pyLower question))

/-- Models `ChatGraph.route_question_node` (`src/graphs/chat_graph.py`
lines 95-136): computes `needs_retrieval` and rebuilds the state with
empty `retrieved_sections` and cleared `answer`/`error`. -/
def route_question_node (s : ChatGraphState) : ChatGraphState :=
  { question := s.question
    needs_retrieval := routeDecision s.question
    retrieved_sections := []
    answer := none
    error := none }

/-- Models `ChatGraph._route_question_router`:
`"retrieve" if state.needs_retrieval else "direct_answer"`. -/
def route_question_router (s : ChatGraphState) : String :=
  if s.needs_retrieval then "retrieve" else "direct_answer"

/-- Models `ChatGraph.retrieve_sections_node` (`src/graphs/chat_graph.py`
lines 151-206). The whole body runs under `try/except`; `ret` is the
outcome of creating the retrieval agent (when needed) and calling
`self.retrieval_agent.process(state.question, k=5)`: `Except.ok` with the
retrieved list, or `Except.error` with the raised exception's text. -/
def retrieve_sections_node (ret : Except String (List SectionHit))
    (s : ChatGraphState) : ChatGraphState :=
  match ret with
  | Except.ok retrieved =>
    { question := s.question
      needs_retrieval := true
      retrieved_sections := retrieved
      answer := none
      error := none }
  | Except.error e =>
    { question := s.question
      needs_retrieval := true
      retrieved_sections := []
      answer := none
      error := some e }

/-- Models `ChatGraph._handle_error` (`src/graphs/chat_graph.py` lines
208-220). The Python code constructs
`ChatGraphState(question=state.question, answer=None, error="Error executing the graph")`,
omitting `needs_retrieval` and `retrieved_sections`, which pydantic fills
with the schema defaults. -/
def handle_error (s : ChatGraphState) : ChatGraphState :=
  { question := s.question
    needs_retrieval := ChatGraphState.defaultNeedsRetrieval
    retrieved_sections := ChatGraphState.defaultRetrievedSections
    answer := none
    error := some "Error executing the graph" }

/-- One enumerated context line pair of `process_chat_agent_node`
(`src/graphs/chat_graph.py` lines 244-246): the two f-string chunks
appended for the `i`-th (1-based) retrieved section, with a 300-character
excerpt of the section text. -/
def sectionLine (i : Nat) (sec : SectionHit) : String :=
  "\n" ++ toString i ++ ". " ++ sec.statute_title ++ " - Section " ++
    sec.label ++ "\n" ++ "   " ++ pySlice sec.text 300 ++ "...\n"

/-- The rendered context block of `process_chat_agent_node`
(`src/graphs/chat_graph.py` lines 243-246): header plus one enumerated
chunk per retrieved section, in list (ranked) order, 1-based. -/
def renderContext (sections : List SectionHit) : String :=
  "\n\nRelevant legal sections:\n" ++
    String.join ((sections.enumFrom 1).map (fun p => sectionLine p.1 p.2))

/-- The `enhanced_question` computed by `process_chat_agent_node`
(`src/graphs/chat_graph.py` lines 242-252): the raw question when
`retrieved_sections` is empty (falsy), otherwise
`f"{question}\n\n{context}"`. -/
def enhancedQuestion (s : ChatGraphState) : String :=
  if s.retrieved_sections.isEmpty then
    s.question
  else
    s.question ++ "\n\n" ++ renderContext s.retrieved_sections

/-- The state rebuild at the end of `process_chat_agent_node`: on success
the node keeps `question`, `needs_retrieval` and `retrieved_sections` and
stores the answer with `error=None`; on an exception it stores
`answer=None` and the exception text. -/
def applyChatOutcome (s : ChatGraphState) :
    Except String String → ChatGraphState
  | Except.ok ans =>
    { question := s.question
      needs_retrieval := s.needs_retrieval
      retrieved_sections := s.retrieved_sections
      answer := some ans
      error := none }
  | Except.error e =>
    { question := s.question
      needs_retrieval := s.needs_retrieval
      retrieved_sections := s.retrieved_sections
      answer := none
      error := some e }

/-- Models `ChatGraph.process_chat_agent_node` (`src/graphs/chat_graph.py`
lines 222-272): build the (possibly augmented) question, invoke the chat
agent on it, and rebuild the state from the outcome. `chat` is the outcome
function of `self.chat_agent.process`: answer text on success, exception
text on failure. -/
def process_chat_agent_node (chat : String → Except String String)
    (s : ChatGraphState) : ChatGraphState :=
  applyChatOutcome s (chat (enhancedQuestion s))

/-- Models `ChatGraph._process_chat_agent_node_router`:
`"pass" if state.answer else "fail"` (Python truthiness: `None` and `""`
are both falsy). -/
def process_chat_agent_node_router (s : ChatGraphState) : String :=
  if pyTruthy s.answer then "pass" else "fail"

/-- The initial state built by `ChatGraph.run`
(`src/graphs/chat_graph.py` lines 302-308). -/
def initialState (question : String) : ChatGraphState :=
  { question := question
    needs_retrieval := false
    retrieved_sections := []
    answer := none
    error := none }

/-- The state after the `START → route_question` edge. -/
def afterRouting (question : String) : ChatGraphState :=
  route_question_node (initialState question)

/-- The state entering `process_chat_agent_node`: the conditional edge out
of `route_question` goes through `retrieve_sections` exactly when the
router returns `"retrieve"`; the `retrieve_sections → process_chat_agent_node`
edge is unconditional. `retrieve` is the retrieval attempt's outcome as a
function of the question it is called on. -/
def afterRetrieval (retrieve : String → Except String (List SectionHit))
    (question : String) : ChatGraphState :=
  if route_question_router (afterRouting question) = "retrieve" then
    retrieve_sections_node (retrieve (afterRouting question).question)
      (afterRouting question)
  else
    afterRouting question

/-- The state after the chat node. -/
def afterChat (retrieve : String → Except String (List SectionHit))
    (chat : String → Except String String) (question : String) :
    ChatGraphState :=
  process_chat_agent_node chat (afterRetrieval retrieve question)

/-- Models `ChatGraph.run` (`src/graphs/chat_graph.py` lines 287-314): the
compiled graph `START → route_question → (retrieve_sections)? →
process_chat_agent_node → (END | _handle_error → END)`, where the final
conditional edge takes `"pass"` to `END` and `"fail"` to `_handle_error`. -/
def run (retrieve : String → Except String (List SectionHit))
    (chat : String → Except String String) (question : String) :
    ChatGraphState :=
  if process_chat_agent_node_router (afterChat retrieve chat question) = "pass" then
    afterChat retrieve chat question
  else
    handle_error (afterChat retrieve chat question)

end ChatGraph

/-- The API response schema `ChatResponse` (`src/schemas/api_schemas.py`). -/
structure ChatResponse where
  question : String
  answer : Option String
  error : Option String
deriving DecidableEq

namespace ChatService

/-- Models `ChatService.process_question` (`src/api/routes.py` lines
23-48) applied to the graph's result: the response copies the final
state's `question`, `answer` and `error` fields unchanged. -/
def process_question (result : ChatGraphState) : ChatResponse :=
  { question := result.question
    answer := result.answer
    error := result.error }

end ChatService

/-! ### Helper lemmas -/

namespace ChatGraph

theorem retrieve_sections_node_question (ret : Except String (List SectionHit))
    (s : ChatGraphState) : (retrieve_sections_node ret s).question = s.question := by
  cases ret <;> rfl

theorem applyChatOutcome_question (s : ChatGraphState)
    (out : Except String String) :
    (applyChatOutcome s out).question = s.question := by
  cases out <;> rfl

theorem applyChatOutcome_needs (s : ChatGraphState)
    (out : Except String String) :
    (applyChatOutcome s out).needs_retrieval = s.needs_retrieval := by
  cases out <;> rfl

theorem applyChatOutcome_sections (s : ChatGraphState)
    (out : Except String String) :
    (applyChatOutcome s out).retrieved_sections = s.retrieved_sections := by
  cases out <;> rfl

theorem process_chat_agent_node_question (chat : String → Except String String)
    (s : ChatGraphState) :
    (process_chat_agent_node chat s).question = s.question :=
  applyChatOutcome_question s _

theorem afterRouting_question (q : String) : (afterRouting q).question = q := rfl

theorem afterRetrieval_question (retrieve : String → Except String (List SectionHit))
    (q : String) : (afterRetrieval retrieve q).question = q := by
  unfold afterRetrieval
  split
  · exact retrieve_sections_node_question _ _
  · rfl

theorem afterChat_question (retrieve : String → Except String (List SectionHit))
    (chat : String → Except String String) (q : String) :
    (afterChat retrieve chat q).question = q := by
  unfold afterChat
  rw [process_chat_agent_node_question, afterRetrieval_question]

theorem router_pass_iff (s : ChatGraphState) :
    process_chat_agent_node_router s = "pass" ↔ pyTruthy s.answer = true := by
  unfold process_chat_agent_node_router
  by_cases h : pyTruthy s.answer = true <;> simp [h]

theorem run_eq (retrieve : String → Except String (List SectionHit))
    (chat : String → Except String String) (q : String) :
    run retrieve chat q =
      if pyTruthy (afterChat retrieve chat q).answer = true then
        afterChat retrieve chat q
      else
        handle_error (afterChat retrieve chat q) := by
  unfold run
  by_cases h : pyTruthy (afterChat retrieve chat q).answer = true
  · rw [if_pos ((router_pass_iff _).mpr h), if_pos h]
  · rw [if_neg (fun hc => h ((router_pass_iff _).mp hc)), if_neg h]

theorem pass_error_none (retrieve : String → Except String (List SectionHit))
    (chat : String → Except String String) (q : String)
    (h : pyTruthy (afterChat retrieve chat q).answer = true) :
    (afterChat retrieve chat q).error = none := by
  cases hout : chat (enhancedQuestion (afterRetrieval retrieve q)) with
  | error e =>
    have hc : afterChat retrieve chat q =
        applyChatOutcome (afterRetrieval retrieve q) (Except.error e) := by
      unfold afterChat process_chat_agent_node
      rw [hout]
    rw [hc] at h
    simp [applyChatOutcome, pyTruthy] at h
  | ok a =>
    have hc : afterChat retrieve chat q =
        applyChatOutcome (afterRetrieval retrieve q) (Except.ok a) := by
      unfold afterChat process_chat_agent_node
      rw [hout]
    rw [hc]
    rfl

end ChatGraph

/-- C1: Graph terminal-state invariant: for every input question (and every
behavior of the retrieval and chat collaborators), the final state returned
by `ChatGraph.run` has exactly one of `answer`/`error` non-empty (never
both, never neither), and its `question` field equals the original input
question unchanged. -/
theorem chatGraph_terminal_state_invariant
    (retrieve : String → Except String (List SectionHit))
    (chat : String → Except String String) (q : String) :
    (pyTruthy (ChatGraph.run retrieve chat q).answer).xor
        (pyTruthy (ChatGraph.run retrieve chat q).error) = true ∧
    (ChatGraph.run retrieve chat q).question = q := by
  rw [ChatGraph.run_eq]
  by_cases h : pyTruthy (ChatGraph.afterChat retrieve chat q).answer = true
  · rw [if_pos h]
    refine ⟨?_, ChatGraph.afterChat_question retrieve chat q⟩
    rw [h, ChatGraph.pass_error_none retrieve chat q h]
    rfl
  · rw [if_neg h]
    exact ⟨rfl, ChatGraph.afterChat_question retrieve chat q⟩

/-- C3: Routing decision: for every question string, the routing step sets
`needs_retrieval` to true if and only if the lower-cased question contains,
as a substring, at least one keyword of the fixed set
{law, legal, act, statute, section, penalty, offence, crime, criminal,
regulation, canada, canadian, legislation}; the decision is the
deterministic pure function `ChatGraph.routeDecision` of the question text
alone. -/
theorem routing_keyword_decision (s : ChatGraphState) :
    (ChatGraph.route_question_node s).needs_retrieval =
      ChatGraph.routeDecision s.question ∧
    (ChatGraph.routeDecision s.question = true ↔
      ∃ kw ∈ ["law", "legal", "act", "statute", "section", "penalty",
              "offence", "crime", "criminal", "regulation", "canada",
              "canadian", "legislation"],
        ∃ pre post, (pyLower s.question).data = pre ++ kw.data ++ post) := by
  refine ⟨rfl, ?_⟩
  unfold ChatGraph.routeDecision ChatGraph.legalKeywords pyIn
  rw [List.any_eq_true]
  constructor
  · rintro ⟨kw, hkw, hin⟩
    rw [decide_eq_true_eq] at hin
    obtain ⟨pre, post, hpp⟩ := hin
    exact ⟨kw, hkw, pre, post, hpp.symm⟩
  · rintro ⟨kw, hkw, pre, post, hpp⟩
    exact ⟨kw, hkw, decide_eq_true ⟨pre, post, hpp.symm⟩⟩

/-- C8: Node totality: every graph node function, for every input state
and every collaborator outcome (including a raised exception, modelled as
`Except.error e`), returns a `ChatGraphState` (the Lean node functions are
total by construction, mirroring the surrounding `try/except` blocks in
the source); the output always preserves `question`, and a collaborator
error is captured into the state's `error` field instead of propagating. -/
theorem graph_nodes_total (s : ChatGraphState)
    (ret : Except String (List SectionHit))
    (chat : String → Except String String) (e : String) :
    (ChatGraph.route_question_node s).question = s.question ∧
    (ChatGraph.retrieve_sections_node ret s).question = s.question ∧
    (ChatGraph.process_chat_agent_node chat s).question = s.question ∧
    (ChatGraph.handle_error s).question = s.question ∧
    ChatGraph.retrieve_sections_node (Except.error e) s =
      { question := s.question, needs_retrieval := true,
        retrieved_sections := [], answer := none, error := some e } ∧
    ChatGraph.process_chat_agent_node (fun _ => Except.error e) s =
      { question := s.question, needs_retrieval := s.needs_retrieval,
        retrieved_sections := s.retrieved_sections, answer := none,
        error := some e } :=
  ⟨rfl, ChatGraph.retrieve_sections_node_question ret s,
   ChatGraph.process_chat_agent_node_question chat s, rfl, rfl, rfl⟩

/-- C9: Implicit frame behavior at terminal states: the chat node's output
preserves the `needs_retrieval` and `retrieved_sections` values of its
input (in particular on the success path, shown concretely for an
arbitrary successful answer `a`), while `handle_error`'s output carries
the schema defaults for those two fields — `needs_retrieval` reset to
`false` and `retrieved_sections` reset to the empty list — discarding the
retrieval context along with the error detail. -/
theorem chat_node_frame_and_error_defaults (s : ChatGraphState)
    (chat : String → Except String String) (a : String) :
    ChatGraph.process_chat_agent_node (fun _ => Except.ok a) s =
      { question := s.question, needs_retrieval := s.needs_retrieval,
        retrieved_sections := s.retrieved_sections, answer := some a,
        error := none } ∧
    (ChatGraph.process_chat_agent_node chat s).needs_retrieval =
      s.needs_retrieval ∧
    (ChatGraph.process_chat_agent_node chat s).retrieved_sections =
      s.retrieved_sections ∧
    ChatGraph.handle_error s =
      { question := s.question,
        needs_retrieval := ChatGraphState.defaultNeedsRetrieval,
        retrieved_sections := ChatGraphState.defaultRetrievedSections,
        answer := none, error := some "Error executing the graph" } ∧
    ChatGraphState.defaultNeedsRetrieval = false ∧
    ChatGraphState.defaultRetrievedSections = ([] : List SectionHit) :=
  ⟨rfl, ChatGraph.applyChatOutcome_needs s _,
   ChatGraph.applyChatOutcome_sections s _, rfl, rfl, rfl⟩

/-- Shared helper: when routing chose retrieval and the retrieval attempt
raised, the state entering the chat node carries the failure detail in
`error` and an empty `retrieved_sections`. -/
theorem ChatGraph.afterRetrieval_failure
    (retrieve : String → Except String (List SectionHit)) (q e : String)
    (hroute : ChatGraph.route_question_router (ChatGraph.afterRouting q) = "retrieve")
    (hfail : retrieve q = Except.error e) :
    ChatGraph.afterRetrieval retrieve q =
      { question := q, needs_retrieval := true, retrieved_sections := [],
        answer := none, error := some e } := by
  unfold ChatGraph.afterRetrieval
  rw [if_pos hroute, ChatGraph.afterRouting_question, hfail]
  rfl

/-- C5: Error-handling terminal: whenever the chat step produces an empty
or absent `answer` (whether the model returned an empty answer or an
exception occurred in that step), the graph transitions to `handle_error`,
whose output state preserves `question`, has `answer = none`, and has
`error` equal to exactly the fixed string "Error executing the graph", with
any prior error detail discarded and not present in the output. -/
theorem chat_failure_error_terminal
    (retrieve : String → Except String (List SectionHit))
    (chat : String → Except String String) (q : String)
    (h : pyTruthy (ChatGraph.afterChat retrieve chat q).answer = false) :
    ChatGraph.run retrieve chat q =
      { question := q, needs_retrieval := false, retrieved_sections := [],
        answer := none, error := some "Error executing the graph" } := by
  rw [ChatGraph.run_eq, if_neg (by rw [h]; exact Bool.false_ne_true)]
  unfold ChatGraph.handle_error
  rw [ChatGraph.afterChat_question]
  rfl

/-- Witness for C5: with a chat collaborator that raises ("boom") on the
question "hi", the graph terminates in the fixed error state. -/
theorem chat_failure_error_terminal_witness :
    pyTruthy (ChatGraph.afterChat (fun _ => Except.ok [])
      (fun _ => Except.error "boom") "hi").answer = false ∧
    ChatGraph.run (fun _ => Except.ok []) (fun _ => Except.error "boom") "hi" =
      { question := "hi", needs_retrieval := false, retrieved_sections := [],
        answer := none, error := some "Error executing the graph" } :=
  ⟨by decide, chat_failure_error_terminal _ _ _ (by decide)⟩

/-- C6: Retrieval failure never halts the graph early: when routing chose
retrieval and the retrieval step fails, the state entering the chat step
has `retrieved_sections` empty and the failure detail in `error`, and the
chat step is still executed on exactly that state (the
`retrieve_sections → process_chat_agent_node` edge is unconditional). -/
theorem retrieval_failure_still_chats
    (retrieve : String → Except String (List SectionHit))
    (chat : String → Except String String) (q e : String)
    (hroute : ChatGraph.route_question_router (ChatGraph.afterRouting q) = "retrieve")
    (hfail : retrieve q = Except.error e) :
    ChatGraph.afterRetrieval retrieve q =
      { question := q, needs_retrieval := true, retrieved_sections := [],
        answer := none, error := some e } ∧
    ChatGraph.afterChat retrieve chat q =
      ChatGraph.process_chat_agent_node chat
        { question := q, needs_retrieval := true, retrieved_sections := [],
          answer := none, error := some e } := by
  have h := ChatGraph.afterRetrieval_failure retrieve q e hroute hfail
  refine ⟨h, ?_⟩
  unfold ChatGraph.afterChat
  rw [h]

/-- Witness for C6: the question "law" routes to retrieval; a retrieval
collaborator failing with "db down" still leads into the chat step with
empty sections and the failure recorded. -/
theorem retrieval_failure_still_chats_witness :
    ChatGraph.route_question_router (ChatGraph.afterRouting "law") = "retrieve" ∧
    ((fun _ => Except.error "db down" :
        String → Except String (List SectionHit)) "law" = Except.error "db down") ∧
    (ChatGraph.afterRetrieval (fun _ => Except.error "db down") "law" =
      { question := "law", needs_retrieval := true, retrieved_sections := [],
        answer := none, error := some "db down" } ∧
     ChatGraph.afterChat (fun _ => Except.error "db down")
        (fun _ => Except.ok "ok") "law" =
      ChatGraph.process_chat_agent_node (fun _ => Except.ok "ok")
        { question := "law", needs_retrieval := true, retrieved_sections := [],
          answer := none, error := some "db down" }) :=
  ⟨by decide, rfl, retrieval_failure_still_chats _ _ _ _ (by decide) rfl⟩

/-- C10: Implicit erasure of retrieval errors: if the retrieval step fails
(`error` set to the exception text, `retrieved_sections` empty) but the
subsequent chat step succeeds with a non-empty answer, the terminal state
has `error = none`, and hence the API response built from it contains no
trace of the retrieval failure. -/
theorem retrieval_error_erased_on_success
    (retrieve : String → Except String (List SectionHit))
    (chat : String → Except String String) (q e a : String)
    (hroute : ChatGraph.route_question_router (ChatGraph.afterRouting q) = "retrieve")
    (hfail : retrieve q = Except.error e)
    (hchat : chat q = Except.ok a)
    (ha : (a == "") = false) :
    ChatGraph.run retrieve chat q =
      { question := q, needs_retrieval := true, retrieved_sections := [],
        answer := some a, error := none } ∧
    ChatService.process_question (ChatGraph.run retrieve chat q) =
      { question := q, answer := some a, error := none } := by
  have h2 := ChatGraph.afterRetrieval_failure retrieve q e hroute hfail
  have h3 : ChatGraph.afterChat retrieve chat q =
      { question := q, needs_retrieval := true, retrieved_sections := [],
        answer := some a, error := none } := by
    unfold ChatGraph.afterChat ChatGraph.process_chat_agent_node
    rw [h2]
    have henh : ChatGraph.enhancedQuestion
        { question := q, needs_retrieval := true, retrieved_sections := [],
          answer := none, error := some e } = q := rfl
    rw [henh, hchat]
    rfl
  have cond : pyTruthy (ChatGraphState.mk q true [] (some a) none).answer = true := by
    show (!(a == "")) = true
    rw [ha]
    rfl
  have hrun : ChatGraph.run retrieve chat q =
      { question := q, needs_retrieval := true, retrieved_sections := [],
        answer := some a, error := none } := by
    rw [ChatGraph.run_eq, h3, if_pos cond]
  exact ⟨hrun, by rw [hrun]; rfl⟩

/-- Witness for C10: question "law" routes to retrieval, retrieval fails
with "db down", the chat collaborator answers "An answer." on the raw
question, and the terminal state and API response carry no trace of the
failure. -/
theorem retrieval_error_erased_on_success_witness :
    ChatGraph.route_question_router (ChatGraph.afterRouting "law") = "retrieve" ∧
    (("An answer." == "") = false) ∧
    (ChatGraph.run (fun _ => Except.error "db down")
        (fun _ => Except.ok "An answer.") "law" =
      { question := "law", needs_retrieval := true, retrieved_sections := [],
        answer := some "An answer.", error := none } ∧
     ChatService.process_question (ChatGraph.run
        (fun _ => Except.error "db down")
        (fun _ => Except.ok "An answer.") "law") =
      { question := "law", answer := some "An answer.", error := none }) :=
  ⟨by decide, by decide,
   retrieval_error_erased_on_success _ _ _ _ _ (by decide) rfl rfl (by decide)⟩

/-- C7: Input validation: for every empty or whitespace-only input string,
both `ChatAgent.process` and `RetrievalAgent.process` fail with the
`ValueError` message raised immediately to the caller; the result does not
depend on any collaborator (embedding, database or model), so no external
call is made. -/
theorem empty_input_validation (q : String) (h : pyFalsyStr q = true) :
    (∀ chain : String → Except String String,
      ChatAgent.process chain q = Except.error "Question cannot be empty") ∧
    (∀ (embed : String → List ℚ) (dist : List ℚ → List ℚ → ℚ)
        (db : List SectionRow) (k : Nat),
      RetrievalAgent.process embed dist db q k =
        Except.error "Query cannot be empty") := by
  constructor
  · intro chain
    unfold ChatAgent.process
    rw [if_pos h]
  · intro embed dist db k
    unfold RetrievalAgent.process
    rw [if_pos h]

/-- Witness for C7: the whitespace-only input " " is rejected by both
entry points, for concrete collaborators. -/
theorem empty_input_validation_witness :
    pyFalsyStr " " = true ∧
    ChatAgent.process (fun t => Except.ok t) " " =
      Except.error "Question cannot be empty" ∧
    RetrievalAgent.process (fun _ => []) (fun _ _ => 0) [] " " 5 =
      Except.error "Query cannot be empty" :=
  ⟨by decide, (empty_input_validation " " (by decide)).1 _,
   (empty_input_validation " " (by decide)).2 _ _ _ _⟩

/-- C2: Retrieval contract: whenever `RetrievalAgent.process` returns a
result list (i.e. for queries passing validation), the list has at most
`k` elements, is sorted in non-increasing `similarity` order, each
result's `similarity` equals 1 minus the cosine distance between the query
embedding and the stored section embedding, and every result arises from a
database row with a non-null embedding and non-null non-empty text (the
eligibility condition of the SQL `WHERE` clause). -/
theorem retrieval_contract (embed : String → List ℚ)
    (dist : List ℚ → List ℚ → ℚ) (db : List SectionRow) (query : String)
    (k : Nat) (results : List SectionHit)
    (hres : RetrievalAgent.process embed dist db query k = Except.ok results) :
    results.length ≤ k ∧
    List.Pairwise (fun a b : SectionHit => b.similarity ≤ a.similarity) results ∧
    ∀ hit ∈ results, ∃ r, r ∈ db ∧ RetrievalAgent.eligibleRow r = true ∧
      ∃ emb, r.embedding = some emb ∧
        hit = RetrievalAgent.mkHit dist (embed query) r ∧
        hit.similarity = 1 - dist (embed query) emb := by
  unfold RetrievalAgent.process at hres
  by_cases hq : pyFalsyStr query = true
  · rw [if_pos hq] at hres
    exact absurd hres (by simp)
  · rw [if_neg hq] at hres
    have hr := Except.ok.inj hres
    subst hr
    refine ⟨?_, ?_, ?_⟩
    · rw [List.length_map]
      exact List.length_take_le k _
    · rw [List.pairwise_map]
      have htrans : ∀ a b c : SectionRow,
          RetrievalAgent.distLe dist (embed query) a b →
          RetrievalAgent.distLe dist (embed query) b c →
          RetrievalAgent.distLe dist (embed query) a c := by
        intro a b c hab hbc
        simp only [RetrievalAgent.distLe, decide_eq_true_eq] at hab hbc ⊢
        exact le_trans hab hbc
      have htotal : ∀ a b : SectionRow,
          RetrievalAgent.distLe dist (embed query) a b ||
          RetrievalAgent.distLe dist (embed query) b a := by
        intro a b
        rcases le_total (RetrievalAgent.rowDist dist (embed query) a)
          (RetrievalAgent.rowDist dist (embed query) b) with h | h <;>
          simp [RetrievalAgent.distLe, h]
      have hsorted := List.sorted_mergeSort htrans htotal
        (db.filter RetrievalAgent.eligibleRow)
      have htaken := List.Pairwise.sublist (List.take_sublist k _) hsorted
      refine htaken.imp ?_
      intro a b hab
      simp only [RetrievalAgent.distLe, decide_eq_true_eq] at hab
      simpa [RetrievalAgent.mkHit] using sub_le_sub_left hab 1
    · intro hit hmem
      obtain ⟨r, hrt, heq⟩ := List.mem_map.mp hmem
      have hrm : r ∈ (db.filter RetrievalAgent.eligibleRow).mergeSort
          (RetrievalAgent.distLe dist (embed query)) :=
        List.mem_of_mem_take hrt
      have hrf : r ∈ db.filter RetrievalAgent.eligibleRow :=
        List.mem_mergeSort.mp hrm
      rw [List.mem_filter] at hrf
      obtain ⟨hdb, helig⟩ := hrf
      have hsome : r.embedding.isSome = true := by
        have h' := helig
        unfold RetrievalAgent.eligibleRow at h'
        simp only [Bool.and_eq_true] at h'
        exact h'.1
      obtain ⟨emb, hemb⟩ := Option.isSome_iff_exists.mp hsome
      refine ⟨r, hdb, helig, emb, hemb, heq.symm, ?_⟩
      rw [← heq]
      show (RetrievalAgent.mkHit dist (embed query) r).similarity =
        1 - dist (embed query) emb
      simp [RetrievalAgent.mkHit, RetrievalAgent.rowDist, hemb]

/-- A concrete database row used by the C2 witness. -/
def witnessRow : SectionRow :=
  { id := "1", label := "91", text := some "Theft over five thousand",
    position := 0, short_title := "Criminal Code",
    long_title := "An Act respecting the criminal law",
    embedding := some [0] }

/-- The result of retrieving against the one-row witness database with a
zero cosine-distance collaborator. -/
def witnessHit : SectionHit :=
  { id := "1", text := "Theft over five thousand", label := "91",
    position := 0, statute_title := "Criminal Code",
    statute_long_title := "An Act respecting the criminal law",
    similarity := 1 }

/-- Witness for C2: against a one-row database, with the embedding model
returning `[0]` and the distance operator constantly `0`, the query "law"
returns the single hit with similarity 1, and the contract holds of it. -/
theorem retrieval_contract_witness :
    RetrievalAgent.process (fun _ => [0]) (fun _ _ => 0) [witnessRow] "law" 5 =
      Except.ok [witnessHit] ∧
    ([witnessHit].length ≤ 5 ∧
     List.Pairwise (fun a b : SectionHit => b.similarity ≤ a.similarity)
       [witnessHit] ∧
     ∀ hit ∈ [witnessHit], ∃ r, r ∈ [witnessRow] ∧
       RetrievalAgent.eligibleRow r = true ∧
       ∃ emb, r.embedding = some emb ∧
         hit = RetrievalAgent.mkHit (fun _ _ => 0) ((fun _ : String => [(0 : ℚ)]) "law") r ∧
         hit.similarity = 1 - (fun _ _ => (0 : ℚ)) ((fun _ : String => [(0 : ℚ)]) "law") emb) := by
  have hfil : List.filter RetrievalAgent.eligibleRow [witnessRow] = [witnessRow] := by
    decide
  have hres : RetrievalAgent.process (fun _ => [0]) (fun _ _ => 0)
      [witnessRow] "law" 5 = Except.ok [witnessHit] := by
    unfold RetrievalAgent.process
    rw [if_neg (by decide : ¬(pyFalsyStr "law" = true))]
    rw [hfil, List.mergeSort_singleton]
    refine congrArg Except.ok ?_
    norm_num [RetrievalAgent.mkHit, RetrievalAgent.rowDist, witnessRow, witnessHit]
  exact ⟨hres, retrieval_contract _ _ _ _ _ _ hres⟩

/-- C4: Context augmentation: whenever the chat step is entered with a
non-empty `retrieved_sections` list, the text passed to the chat
collaborator is the original question followed by the rendered context
block, which enumerates the hits in ranked (list) order — the `i`-th line
pair is built from the `i`-th hit with its statute title, label, and an
excerpt that is a prefix of the hit's text of at most 300 characters —
while the state's `question` field is preserved unaugmented; whenever
`retrieved_sections` is empty (state `other`), the chat collaborator
receives exactly the raw question string unmodified. -/
theorem context_augmentation (state other : ChatGraphState)
    (chat : String → Except String String)
    (hne : state.retrieved_sections ≠ [])
    (he : other.retrieved_sections = []) :
    ChatGraph.process_chat_agent_node chat state =
      ChatGraph.applyChatOutcome state
        (chat (state.question ++ "\n\n" ++
          ChatGraph.renderContext state.retrieved_sections)) ∧
    (ChatGraph.process_chat_agent_node chat state).question = state.question ∧
    (∀ i : Nat,
      ((state.retrieved_sections.enumFrom 1).map
        (fun p => ChatGraph.sectionLine p.1 p.2))[i]? =
      (state.retrieved_sections[i]?).map
        (fun hit => ChatGraph.sectionLine (1 + i) hit)) ∧
    (∀ hit ∈ state.retrieved_sections,
      (pySlice hit.text 300).length ≤ 300 ∧
      ∃ rest, hit.text.data = (pySlice hit.text 300).data ++ rest) ∧
    ChatGraph.process_chat_agent_node chat other =
      ChatGraph.applyChatOutcome other (chat other.question) := by
  refine ⟨?_, ChatGraph.process_chat_agent_node_question chat state,
    ?_, ?_, ?_⟩
  · unfold ChatGraph.process_chat_agent_node ChatGraph.enhancedQuestion
    rw [if_neg (by simp [hne])]
  · intro i
    rw [List.getElem?_map, List.getElem?_enumFrom, Option.map_map]
    rfl
  · intro hit _
    constructor
    · show (hit.text.data.take 300).length ≤ 300
      exact List.length_take_le 300 _
    · exact ⟨hit.text.data.drop 300,
        (List.take_append_drop 300 hit.text.data).symm⟩
  · unfold ChatGraph.process_chat_agent_node ChatGraph.enhancedQuestion
    rw [if_pos (by simp [he])]

/-- A concrete chat-node input state with one retrieved section, used by
the C4 witness. -/
def witnessStateWithSections : ChatGraphState :=
  { question := "What is the law on theft", needs_retrieval := true,
    retrieved_sections := [witnessHit], answer := none, error := none }

/-- A concrete chat-node input state with no retrieved sections, used by
the C4 witness. -/
def witnessStateNoSections : ChatGraphState :=
  { question := "What is 2+2", needs_retrieval := false,
    retrieved_sections := [], answer := none, error := none }

/-- Witness for C4: with one retrieved section the chat collaborator is
invoked on the augmented question; with none it is invoked on the raw
question. -/
theorem context_augmentation_witness :
    witnessStateWithSections.retrieved_sections ≠ [] ∧
    witnessStateNoSections.retrieved_sections = [] ∧
    (ChatGraph.process_chat_agent_node (fun t => Except.ok t)
        witnessStateWithSections =
      ChatGraph.applyChatOutcome witnessStateWithSections
        ((fun t => Except.ok t) (witnessStateWithSections.question ++ "\n\n" ++
          ChatGraph.renderContext witnessStateWithSections.retrieved_sections)) ∧
     (ChatGraph.process_chat_agent_node (fun t => Except.ok t)
        witnessStateWithSections).question =
       witnessStateWithSections.question ∧
     (∀ i : Nat,
       ((witnessStateWithSections.retrieved_sections.enumFrom 1).map
         (fun p => ChatGraph.sectionLine p.1 p.2))[i]? =
       (witnessStateWithSections.retrieved_sections[i]?).map
         (fun hit => ChatGraph.sectionLine (1 + i) hit)) ∧
     (∀ hit ∈ witnessStateWithSections.retrieved_sections,
       (pySlice hit.text 300).length ≤ 300 ∧
       ∃ rest, hit.text.data = (pySlice hit.text 300).data ++ rest) ∧
     ChatGraph.process_chat_agent_node (fun t => Except.ok t)
        witnessStateNoSections =
      ChatGraph.applyChatOutcome witnessStateNoSections
        ((fun t => Except.ok t) witnessStateNoSections.question)) :=
  ⟨by decide, rfl,
   context_augmentation witnessStateWithSections witnessStateNoSections
     (fun t => Except.ok t) (by decide) rfl⟩
